import Mathlib

/-!
Verification of the `semicolon_if_nothing_returned` lint
(`src/clippy_lints/src/semicolon_if_nothing_returned.rs`).

The program representation (spans, expressions, blocks, the type-check
results, the source map, the parent-expression lookup) is shallowly
embedded: the external queries the lint performs are fields of a
`Context` record, and the lint's two functions — `check_block` and
`check_if_inside_block_on_same_line` — are translated statement by
statement from the Rust source.
-/

/-- A source span: a byte range plus a flag recording whether the span
originates from a macro expansion rather than literal source text. -/
structure Span where
  lo : Nat
  hi : Nat
  fromExpansion : Bool
deriving DecidableEq

/-- The rustc operation `Span::to`: the span stretching from the start of the first
span to the end of the second. -/
def Span.to (s t : Span) : Span :=
  ⟨s.lo, t.hi, s.fromExpansion⟩

/-- The resolved type of an expression, as produced by type inference.
Only the "is it exactly the unit type" distinction matters to the lint. -/
inductive Ty where
  | unit
  | never
  | bool
  | other (name : String)
deriving DecidableEq

/-- The type test `Ty::is_unit`: true exactly for the unit type (not for `!`, not for
other zero-sized types). -/
def Ty.is_unit : Ty → Bool
  | .unit => true
  | _ => false

/-- The expression kinds the lint dispatches on (`rustc_hir::ExprKind`):
closures and block expressions are matched by the same-line suppressor,
`DropTemps` by the synthesized-node filter; every other kind behaves
uniformly and is collapsed into representative ordinary variants. -/
inductive ExprKind where
  | call
  | lit
  | path
  | closure
  | block
  | dropTemps
  | other
deriving DecidableEq

/-- A HIR expression node: an id, a kind tag and a span. -/
structure Expr where
  hirId : Nat
  kind : ExprKind
  span : Span
deriving DecidableEq

/-- A statement of a block. `semi e` is an expression statement terminated
by the statement separator; the other forms are irrelevant to the lint. -/
inductive Stmt where
  | semi (e : Expr)
  | other
deriving DecidableEq

/-- The rule mode `rustc_hir::BlockCheckMode`: a default block or an unsafe-marked one. -/
inductive BlockCheckMode where
  | defaultBlock
  | unsafeBlock
deriving DecidableEq

/-- A HIR block: statements, an optional trailing expression, the rule
mode, a span and an id. -/
structure Block where
  hirId : Nat
  stmts : List Stmt
  expr : Option Expr
  rules : BlockCheckMode
  span : Span
deriving DecidableEq

/-- The confidence level `rustc_errors::Applicability` of a suggestion. -/
inductive Applicability where
  | machineApplicable
  | maybeIncorrect
  | hasPlaceholders
  | unspecified
deriving DecidableEq

/-- The diagnostic record built by `span_lint_and_sugg`: primary span,
message, suggestion label, replacement text and confidence level. -/
structure Diagnostic where
  lint : String
  span : Span
  msg : String
  helpMsg : String
  sugg : String
  applicability : Applicability
deriving DecidableEq

/-- The read-only queries the lint makes of the compiler session: the
source map (`lineOf` maps a byte position to its line), the raw snippet
lookup (`none` when no source text is available for a span), the one-step
call-site resolution for expansion spans, the type-check results keyed by
expression id, and the parent-expression lookup keyed by node id. -/
structure Context where
  lineOf : Nat → Nat
  snippet : Span → Option String
  callsiteSpan : Span → Span
  exprTy : Nat → Ty
  parentExpr : Nat → Option Expr

/-- The resolution `Span::source_callsite`: resolve an expansion span to the span of the
macro call that produced it; a literal span resolves to itself. -/
def Context.sourceCallsite (cx : Context) (s : Span) : Span :=
  if s.fromExpansion then cx.callsiteSpan s else s

/-- The query `SourceMap::is_multiline`: does the span cross a line boundary? -/
def Context.is_multiline (cx : Context) (s : Span) : Bool :=
  cx.lineOf s.lo != cx.lineOf s.hi

/-- Modelled from the spec: `clippy_utils::in_macro` (the macro-origin
query; the utility itself is not under `src/`). Per the spec, it answers
whether "the span originates from macro expansion rather than literal
source text". -/
def in_macro (s : Span) : Bool :=
  s.fromExpansion

/-- The test `str::ends_with` with a single-character pattern: true exactly when
the string's last character is the given one. -/
def ends_with_char (s : String) (c : Char) : Bool :=
  s.data.getLast? == some c

/-- Modelled from the spec: `clippy_utils::source::snippet_with_macro_callsite`
(not under `src/`). Per the spec, snippet extraction renders "the text at
the macro's call site (not the expanded internal code); if no call-site
text is available", it falls back to the given default placeholder. -/
def snippet_with_macro_callsite (cx : Context) (span : Span) (default : String) : String :=
  (cx.snippet (cx.sourceCallsite span)).getD default

/-- Modelled from the spec: `sugg::Sugg::hir_with_macro_callsite` followed
by `Display` (clippy_utils, not under `src/`). Per the spec, the rendered
suggestion text is the call-site-aware snippet of the expression (with the
given default when no text is available). -/
def sugg_hir_with_macro_callsite (cx : Context) (expr : Expr) (default : String) : String :=
  snippet_with_macro_callsite cx expr.span default

/-- The helper `check_if_inside_block_on_same_line`, translated from the source:
the block must have a parent expression; either the block's rules are not
the default block mode or the parent is a closure or a block expression;
the block must have no statements; then the result is the negation of
`is_multiline` on the parent-to-trailing-expression span. Any failing step
of the chain yields `false`. -/
def check_if_inside_block_on_same_line (cx : Context) (block : Block) (last_expr : Expr) : Bool :=
  match cx.parentExpr block.hirId with
  | some parent =>
    if ((!(block.rules == BlockCheckMode.defaultBlock))
          || (parent.kind == ExprKind.closure || parent.kind == ExprKind.block))
        && block.stmts.isEmpty then
      !(cx.is_multiline (parent.span.to last_expr.span))
    else
      false
  | none => false

/-- The analysis `check_block`, translated from the source `if_chain!`: skip when the
block span is macro-origin, when there is no trailing expression, when its
type is not unit, when the call-site snippet (default placeholder `\x7d`)
ends with a closing brace, when the same-line suppressor fires, or when
the trailing expression is a `DropTemps` node; otherwise emit the
diagnostic built by `span_lint_and_sugg`. -/
def check_block (cx : Context) (block : Block) : Option Diagnostic :=
  if in_macro block.span then none
  else
    match block.expr with
    | none => none
    | some expr =>
      let t_expr := cx.exprTy expr.hirId
      if !(t_expr.is_unit) then none
      else
        let snippet := snippet_with_macro_callsite cx expr.span "\x7d"
        if ends_with_char snippet '\x7d' then none
        else if check_if_inside_block_on_same_line cx block expr then none
        else
          match expr.kind with
          | ExprKind.dropTemps => none
          | _ =>
            let sugg := sugg_hir_with_macro_callsite cx expr ".."
            let suggestion := sugg ++ ";"
            some
              { lint := "semicolon_if_nothing_returned"
                span := cx.sourceCallsite expr.span
                msg := "consider adding a `;` to the last statement for consistent formatting"
                helpMsg := "add a `;` here"
                sugg := suggestion
                applicability := Applicability.maybeIncorrect }

/-- The semantic effect on the HIR of applying the suggested fix: the
separator turns the trailing expression into an expression statement, so
the fixed block carries it as its last statement and has no trailing
expression; a block without a trailing expression is unchanged. -/
def apply_suggested_fix (block : Block) : Block :=
  match block.expr with
  | some e => { block with stmts := block.stmts ++ [Stmt.semi e], expr := none }
  | none => block

theorem check_block_eq_none_of_expr_none (cx : Context) (block : Block)
    (h : block.expr = none) : check_block cx block = none := by
  unfold check_block
  rw [h]
  split <;> rfl

/-- C1: the same-line suppressor returns true exactly when the block has a
parent expression, the rule mode is non-default or the parent is a closure
or a block expression, the block has no statements, and the span joined
from the parent through the trailing expression stays on one line; in
every other case (including the no-parent case) it returns false. -/
theorem sameLineSuppressor_characterization (cx : Context) (block : Block) (last_expr : Expr) :
    check_if_inside_block_on_same_line cx block last_expr = true ↔
      ∃ parent, cx.parentExpr block.hirId = some parent ∧
        (block.rules ≠ BlockCheckMode.defaultBlock ∨
          parent.kind = ExprKind.closure ∨ parent.kind = ExprKind.block) ∧
        block.stmts = [] ∧
        cx.is_multiline (parent.span.to last_expr.span) = false := by
  constructor
  · intro h
    unfold check_if_inside_block_on_same_line at h
    split at h
    · rename_i parent hp
      split at h
      · rename_i hc
        rw [Bool.and_eq_true, Bool.or_eq_true, Bool.or_eq_true] at hc
        refine ⟨parent, hp, ?_, List.isEmpty_iff.mp hc.2, by simpa using h⟩
        rcases hc.1 with hu | hk | hk
        · exact Or.inl (by simpa using hu)
        · exact Or.inr (Or.inl (by simpa using hk))
        · exact Or.inr (Or.inr (by simpa using hk))
      · exact absurd h (by simp)
    · exact absurd h (by simp)
  · rintro ⟨parent, hp, hor, hstmts, hm⟩
    have hc : (((!(block.rules == BlockCheckMode.defaultBlock))
        || (parent.kind == ExprKind.closure || parent.kind == ExprKind.block))
        && block.stmts.isEmpty) = true := by
      rw [Bool.and_eq_true, Bool.or_eq_true, Bool.or_eq_true]
      refine ⟨?_, List.isEmpty_iff.mpr hstmts⟩
      rcases hor with hu | hk | hk
      · exact Or.inl (by simpa using hu)
      · exact Or.inr (Or.inl (by simpa using hk))
      · exact Or.inr (Or.inr (by simpa using hk))
    unfold check_if_inside_block_on_same_line
    rw [hp]
    dsimp only
    rw [if_pos hc, hm]
    rfl

theorem brace_ends_with_brace : ends_with_char "\x7d" '\x7d' = true := by
  decide

/-- C2 (amended): for every block whose own span originates from macro
expansion, the macro-origin filter skips it and no diagnostic is emitted. -/
theorem macro_origin_block_not_linted (cx : Context) (block : Block)
    (h : in_macro block.span = true) :
    check_block cx block = none := by
  simp [check_block, h]

theorem macro_origin_block_not_linted_witness :
    in_macro (Span.mk 0 5 true) = true ∧
      check_block
        ⟨fun _ => 1, fun _ => none, id, fun _ => Ty.unit, fun _ => none⟩
        ⟨0, [], none, BlockCheckMode.defaultBlock, Span.mk 0 5 true⟩ = none :=
  ⟨rfl,
    macro_origin_block_not_linted
      ⟨fun _ => 1, fun _ => none, id, fun _ => Ty.unit, fun _ => none⟩
      ⟨0, [], none, BlockCheckMode.defaultBlock, Span.mk 0 5 true⟩ rfl⟩

/-- C4: whenever the trailing expression's resolved type is not exactly
the unit type, no diagnostic is emitted. -/
theorem non_unit_trailing_expr_not_linted (cx : Context) (block : Block) (expr : Expr)
    (h1 : block.expr = some expr)
    (h2 : (cx.exprTy expr.hirId).is_unit = false) :
    check_block cx block = none := by
  simp [check_block, h1, h2]

theorem non_unit_trailing_expr_not_linted_witness :
    (⟨0, [], some ⟨1, ExprKind.lit, Span.mk 2 3 false⟩, BlockCheckMode.defaultBlock,
        Span.mk 0 5 false⟩ : Block).expr = some ⟨1, ExprKind.lit, Span.mk 2 3 false⟩ ∧
      Ty.is_unit ((⟨fun _ => 1, fun _ => none, id, fun _ => Ty.bool, fun _ => none⟩ :
        Context).exprTy 1) = false ∧
      check_block ⟨fun _ => 1, fun _ => none, id, fun _ => Ty.bool, fun _ => none⟩
        ⟨0, [], some ⟨1, ExprKind.lit, Span.mk 2 3 false⟩, BlockCheckMode.defaultBlock,
          Span.mk 0 5 false⟩ = none :=
  ⟨rfl, rfl,
    non_unit_trailing_expr_not_linted
      ⟨fun _ => 1, fun _ => none, id, fun _ => Ty.bool, fun _ => none⟩
      ⟨0, [], some ⟨1, ExprKind.lit, Span.mk 2 3 false⟩, BlockCheckMode.defaultBlock,
        Span.mk 0 5 false⟩
      ⟨1, ExprKind.lit, Span.mk 2 3 false⟩ rfl rfl⟩

/-- C5: whenever the rendered call-site snippet of the trailing expression
ends with a closing brace, no diagnostic is emitted, regardless of the
expression's resolved type. -/
theorem brace_suffix_not_linted (cx : Context) (block : Block) (expr : Expr)
    (h1 : block.expr = some expr)
    (h2 : ends_with_char (snippet_with_macro_callsite cx expr.span "\x7d") '\x7d' = true) :
    check_block cx block = none := by
  simp [check_block, h1, h2]

/-- C8: a block with no trailing expression never receives a diagnostic. -/
theorem no_trailing_expr_not_linted (cx : Context) (block : Block)
    (h : block.expr = none) :
    check_block cx block = none :=
  check_block_eq_none_of_expr_none cx block h

theorem no_trailing_expr_not_linted_witness :
    (⟨3, [Stmt.other], none, BlockCheckMode.defaultBlock, Span.mk 0 9 false⟩ : Block).expr
        = none ∧
      check_block ⟨fun _ => 1, fun _ => none, id, fun _ => Ty.unit, fun _ => none⟩
        ⟨3, [Stmt.other], none, BlockCheckMode.defaultBlock, Span.mk 0 9 false⟩ = none :=
  ⟨rfl,
    no_trailing_expr_not_linted
      ⟨fun _ => 1, fun _ => none, id, fun _ => Ty.unit, fun _ => none⟩
      ⟨3, [Stmt.other], none, BlockCheckMode.defaultBlock, Span.mk 0 9 false⟩ rfl⟩

/-- C7: a trailing expression that is the compiler-synthesized `DropTemps`
wrapper never receives a diagnostic. -/
theorem drop_temps_not_linted (cx : Context) (block : Block) (expr : Expr)
    (h1 : block.expr = some expr)
    (h2 : expr.kind = ExprKind.dropTemps) :
    check_block cx block = none := by
  simp [check_block, h1, h2]

/-- C10: when no source text is available for the call-site-resolved span
of the trailing expression, the snippet degrades to the closing-brace
placeholder and the brace-suffix filter necessarily rejects the block, so
no diagnostic (and hence no replacement text) is ever produced from the
placeholder. -/
theorem missing_snippet_never_reaches_emission (cx : Context) (block : Block) (expr : Expr)
    (h1 : block.expr = some expr)
    (h2 : cx.snippet (cx.sourceCallsite expr.span) = none) :
    check_block cx block = none := by
  simp [check_block, snippet_with_macro_callsite, h1, h2, brace_ends_with_brace]

/-- C3: whenever a diagnostic is emitted, its replacement text is the
call-site snippet of the trailing expression followed by the statement
separator, its primary span is the call-site-resolved span of the trailing
expression, and its applicability is `MaybeIncorrect`. -/
theorem emitted_diagnostic_shape (cx : Context) (block : Block) (d : Diagnostic)
    (h : check_block cx block = some d) :
    ∃ e, block.expr = some e ∧
      (∃ s, cx.snippet (cx.sourceCallsite e.span) = some s ∧ d.sugg = s ++ ";") ∧
      d.span = cx.sourceCallsite e.span ∧
      d.applicability = Applicability.maybeIncorrect := by
  simp only [check_block] at h
  split at h
  · exact absurd h (by simp)
  split at h
  · exact absurd h (by simp)
  rename_i e he
  split at h
  · exact absurd h (by simp)
  split at h
  · exact absurd h (by simp)
  rename_i hbrace
  split at h
  · exact absurd h (by simp)
  split at h
  · exact absurd h (by simp)
  injection h with h
  subst h
  refine ⟨e, he, ?_, rfl, rfl⟩
  cases hs : cx.snippet (cx.sourceCallsite e.span) with
  | none =>
    rw [snippet_with_macro_callsite, hs] at hbrace
    exact absurd brace_ends_with_brace hbrace
  | some s =>
    refine ⟨s, rfl, ?_⟩
    simp only [sugg_hir_with_macro_callsite, snippet_with_macro_callsite, hs, Option.getD_some]

/-- A literal function body whose trailing expression comes from a macro
expansion of a unit-returning invocation written by the user: the block
span is literal source, the expression span is expansion output whose call
site carries the text of the invocation. -/
def c2cx : Context :=
  ⟨fun _ => 1,
   fun s => if s == Span.mk 12 27 false then some "println!(\"hi\")" else none,
   fun _ => Span.mk 12 27 false,
   fun _ => Ty.unit,
   fun _ => none⟩

def c2expr : Expr :=
  ⟨1, ExprKind.call, Span.mk 12 27 true⟩

def c2block : Block :=
  ⟨0, [], some c2expr, BlockCheckMode.defaultBlock, Span.mk 10 29 false⟩

def c2diag : Diagnostic :=
  ⟨"semicolon_if_nothing_returned", Span.mk 12 27 false,
   "consider adding a `;` to the last statement for consistent formatting",
   "add a `;` here", "println!(\"hi\");", Applicability.maybeIncorrect⟩

/-- C2 counterexample: a literal block whose trailing expression is
macro-generated (its span is expansion output) is not skipped by the
macro-origin filter — that filter tests the block's span — and a
diagnostic is emitted for it. -/
theorem macro_generated_trailing_expr_counterexample :
    c2block.expr = some c2expr ∧ c2expr.span.fromExpansion = true ∧
      in_macro c2block.span = false ∧
      check_block c2cx c2block = some c2diag :=
  ⟨rfl, rfl, rfl, rfl⟩

theorem emitted_diagnostic_shape_witness :
    check_block c2cx c2block = some c2diag ∧
      (∃ e, c2block.expr = some e ∧
        (∃ s, c2cx.snippet (c2cx.sourceCallsite e.span) = some s ∧ c2diag.sugg = s ++ ";") ∧
        c2diag.span = c2cx.sourceCallsite e.span ∧
        c2diag.applicability = Applicability.maybeIncorrect) :=
  ⟨rfl, emitted_diagnostic_shape c2cx c2block c2diag rfl⟩

/-- A block whose trailing expression is an if-else form: its rendered
snippet ends in a closing brace. -/
def c5cx : Context :=
  ⟨fun _ => 1,
   fun s => if s == Span.mk 2 30 false then some "if c \x7b a() \x7d else \x7b b() \x7d"
     else none,
   id, fun _ => Ty.unit, fun _ => none⟩

def c5expr : Expr :=
  ⟨1, ExprKind.other, Span.mk 2 30 false⟩

def c5block : Block :=
  ⟨0, [], some c5expr, BlockCheckMode.defaultBlock, Span.mk 0 32 false⟩

theorem brace_suffix_not_linted_witness :
    c5block.expr = some c5expr ∧
      ends_with_char (snippet_with_macro_callsite c5cx c5expr.span "\x7d") '\x7d' = true ∧
      check_block c5cx c5block = none :=
  ⟨rfl, by decide, brace_suffix_not_linted c5cx c5block c5expr rfl (by decide)⟩

/-- A block whose trailing expression is the `DropTemps` wrapper produced
by desugaring a `for` loop; every preceding filter passes. -/
def c7cx : Context :=
  ⟨fun _ => 1,
   fun s => if s == Span.mk 4 9 false then some "foo()" else none,
   id, fun _ => Ty.unit, fun _ => none⟩

def c7expr : Expr :=
  ⟨1, ExprKind.dropTemps, Span.mk 4 9 false⟩

def c7block : Block :=
  ⟨0, [], some c7expr, BlockCheckMode.defaultBlock, Span.mk 2 11 false⟩

theorem drop_temps_not_linted_witness :
    c7block.expr = some c7expr ∧ c7expr.kind = ExprKind.dropTemps ∧
      check_block c7cx c7block = none :=
  ⟨rfl, rfl, drop_temps_not_linted c7cx c7block c7expr rfl rfl⟩

/-- A context with no source text available for any span at all. -/
def c10cx : Context :=
  ⟨fun _ => 1, fun _ => none, id, fun _ => Ty.unit, fun _ => none⟩

def c10expr : Expr :=
  ⟨1, ExprKind.call, Span.mk 4 9 false⟩

def c10block : Block :=
  ⟨0, [], some c10expr, BlockCheckMode.defaultBlock, Span.mk 2 11 false⟩

theorem missing_snippet_never_reaches_emission_witness :
    c10block.expr = some c10expr ∧
      c10cx.snippet (c10cx.sourceCallsite c10expr.span) = none ∧
      check_block c10cx c10block = none :=
  ⟨rfl, rfl, missing_snippet_never_reaches_emission c10cx c10block c10expr rfl rfl⟩

/-- The closure scenario: a block `\x7b foo() \x7d` that is the sole body
of a closure. The parent closure expression starts at position 0; the call
occupies positions 10–15. In the one-line layout every position is on
line 1; in the two-line layout the closure opening is on line 1 and the
call on line 2. -/
def c6parent : Expr :=
  ⟨5, ExprKind.closure, Span.mk 0 20 false⟩

def c6expr : Expr :=
  ⟨8, ExprKind.call, Span.mk 10 15 false⟩

def c6block : Block :=
  ⟨7, [], some c6expr, BlockCheckMode.defaultBlock, Span.mk 8 17 false⟩

def c6cx_one_line : Context :=
  ⟨fun _ => 1,
   fun s => if s == Span.mk 10 15 false then some "foo()" else none,
   id, fun _ => Ty.unit,
   fun i => if i == 7 then some c6parent else none⟩

def c6cx_two_lines : Context :=
  { c6cx_one_line with lineOf := fun p => if p < 5 then 1 else 2 }

def c6diag : Diagnostic :=
  ⟨"semicolon_if_nothing_returned", Span.mk 10 15 false,
   "consider adding a `;` to the last statement for consistent formatting",
   "add a `;` here", "foo();", Applicability.maybeIncorrect⟩

/-- C6: the single-expression closure body receives no diagnostic when the
whole closure is on one source line, and receives one when the closure
opening and the call sit on two different lines. -/
theorem closure_body_same_line_suppressed :
    check_block c6cx_one_line c6block = none ∧
      check_block c6cx_two_lines c6block = some c6diag :=
  ⟨by decide, by decide⟩

/-- C9: the analysis is idempotent across its own fix — any block that
receives a diagnostic becomes, after the separator is appended to its
trailing expression, a statement-only block, and re-running the analysis
on the fixed block yields no diagnostic. -/
theorem fix_is_idempotent (cx : Context) (block : Block) (d : Diagnostic)
    (h : check_block cx block = some d) :
    (apply_suggested_fix block).expr = none ∧
      check_block cx (apply_suggested_fix block) = none := by
  have hne : block.expr ≠ none := by
    intro h0
    rw [check_block_eq_none_of_expr_none cx block h0] at h
    exact Option.noConfusion h
  obtain ⟨e, he⟩ := Option.ne_none_iff_exists'.mp hne
  have hfix : (apply_suggested_fix block).expr = none := by
    unfold apply_suggested_fix
    rw [he]
  exact ⟨hfix, check_block_eq_none_of_expr_none cx _ hfix⟩

/-- A plain function body `\x7b foo() \x7d` that receives the suggestion. -/
def c9cx : Context :=
  ⟨fun _ => 1,
   fun s => if s == Span.mk 4 9 false then some "foo()" else none,
   id, fun _ => Ty.unit, fun _ => none⟩

def c9expr : Expr :=
  ⟨1, ExprKind.call, Span.mk 4 9 false⟩

def c9block : Block :=
  ⟨0, [], some c9expr, BlockCheckMode.defaultBlock, Span.mk 2 11 false⟩

def c9diag : Diagnostic :=
  ⟨"semicolon_if_nothing_returned", Span.mk 4 9 false,
   "consider adding a `;` to the last statement for consistent formatting",
   "add a `;` here", "foo();", Applicability.maybeIncorrect⟩

theorem fix_is_idempotent_witness :
    check_block c9cx c9block = some c9diag ∧
      (apply_suggested_fix c9block).expr = none ∧
      check_block c9cx (apply_suggested_fix c9block) = none :=
  ⟨by decide, fix_is_idempotent c9cx c9block c9diag (by decide)⟩
